import Mathlib

/-!
# Verification of the hearthbreaker minion-effect module

Shallow embedding of `hearthbreaker/effects/minion.py`: each effect class's
`apply` / `unapply` / handler methods are translated into pure Lean functions
over explicit state records.  Machinery the effects call into that lives
outside this module (the event bus, `MINION_TYPE`, the cost fold over a
player's `mana_filters`) is modelled from the specification and marked as such
in its doc comment.
-/

namespace Hearthbreaker

/-! ## Minion types

`MINION_TYPE` is an integer enumeration defined outside this module.
`MINION_TYPE.ALL` is a distinguished sentinel meaning "any minion"; we embed a
minion-type field as `Option Nat`, with `none` standing for `MINION_TYPE.ALL`
and `some t` for a concrete type id. -/

/-- `DrawOnMinion.check_minion_draw` (minion.py lines 130-133): the handler
bound to `minion_placed`.  Returns `true` exactly when the handler calls
`self.target.player.draw()`.  Source condition:
`(self.minion_type != MINION_TYPE.ALL and new_minion.card.minion_type is self.minion_type)
 and new_minion is not self.target`. -/
def DrawOnMinion.drawsCard (minion_type : Option Nat) (newMinionType : Nat)
    (newMinionIsTarget : Bool) : Bool :=
  (!(minion_type == none) && (some newMinionType == minion_type)) && !newMinionIsTarget

/-- `AddCardOnSpell.add_card` (minion.py lines 418-420): the handler bound to
`spell_cast`.  `hand` is the owning player's hand (a list of cards, here card
names); the handler appends one copy of `self.card` when the hand has fewer
than 10 cards. -/
def AddCardOnSpell.add_card (card : String) (hand : List String) : List String :=
  if hand.length < 10 then hand ++ [card] else hand

/-! ## ResurrectFriendlyMinionsAtEndOfTurn (minion.py lines 630-651)

State of one applied effect instance together with the owning player's board.
`deadMinions` is the effect's `dead_minions` list of recorded cards;
`board` is `self.target.player.minions`, as a list of card names.
`minion.summon(player, game, len(player.minions))` places the summoned minion
at index `len(player.minions)`, i.e. appends it to the board. -/

structure ResurrectState where
  deadMinions : List String
  board : List String
  deriving DecidableEq, Repr

/-- `summon` at a position: the external `Card.summon(player, game, index)`
contract, modelled from the spec: the minion enters the player's board at the
given index. -/
def summonAt (board : List String) (card : String) (index : Nat) : List String :=
  board.take index ++ [card] ++ board.drop index

/-- `ResurrectFriendlyMinionsAtEndOfTurn._minion_died` (lines 646-647):
records the dead minion's card. -/
def Resurrect.minion_died (st : ResurrectState) (deadCard : String) : ResurrectState :=
  { st with deadMinions := st.deadMinions ++ [deadCard] }

/-- `ResurrectFriendlyMinionsAtEndOfTurn._turn_ended` (lines 649-651):
summons one minion per recorded card, each at `len(player.minions)` at the
moment it is summoned; `dead_minions` is not cleared. -/
def Resurrect.turn_ended (st : ResurrectState) : ResurrectState :=
  { st with board := st.deadMinions.foldl (fun b c => summonAt b c b.length) st.board }

/-- `ResurrectFriendlyMinionsAtEndOfTurn.unapply` (lines 640-644): unbinds the
three listeners and resets `dead_minions` to `[]`.  Only the effect-local state
is shown; the listener bookkeeping is dealt with separately. -/
def Resurrect.unapply (st : ResurrectState) : ResurrectState :=
  { st with deadMinions := [] }

/-! ## Count-gated effects: HealAsDamage and DoubleDeathrattle

Per-player state touched by the two count-gated effect kinds.
`healCount` / `ddCount` are the registry's `effect_count[HealAsDamage]` /
`effect_count[DoubleDeathrattle]`; the registry contract (modelled from the
spec, §4.3) increments the count before `apply()` runs and decrements it
before `unapply()` runs.  `minionDiedListeners` is the player's listener list
for the `minion_died` event (callbacks in registration order). -/

/-- Callbacks bound on player buses.  Bound methods of distinct Python effect
instances are distinct objects, and the bus's `unbind` removes only a
structurally-equal entry (a no-op otherwise, spec §4.1); `trigger_deathrattle`
therefore carries the identity `eid` of the `DoubleDeathrattle` instance it is
a bound method of. -/
inductive PlayerCb
  | trigger_deathrattle (eid : Nat)
  | die
  | remove_immunity
  | did_damage
  | check_minion_filter
  | check_card_filter
  | do_action
  deriving DecidableEq, Repr

structure CountGatedPlayer where
  healCount : Nat
  ddCount : Nat
  heal_does_damage : Bool
  minionDiedListeners : List PlayerCb
  deriving DecidableEq, Repr

/-- Registry increment followed by `HealAsDamage.apply` (lines 320-322):
`if self.target.player.effect_count[HealAsDamage] == 1: heal_does_damage = True`. -/
def HealAsDamage.applyStep (p : CountGatedPlayer) : CountGatedPlayer :=
  let p := { p with healCount := p.healCount + 1 }
  if p.healCount == 1 then { p with heal_does_damage := true } else p

/-- Registry decrement followed by `HealAsDamage.unapply` (lines 324-326):
`if self.target.player.effect_count[HealAsDamage] == 0: heal_does_damage = False`. -/
def HealAsDamage.unapplyStep (p : CountGatedPlayer) : CountGatedPlayer :=
  let p := { p with healCount := p.healCount - 1 }
  if p.healCount == 0 then { p with heal_does_damage := false } else p

/-- Registry increment followed by `DoubleDeathrattle.apply` (lines 303-305):
the instance `eid` binds *its own* bound method `self.trigger_deathrattle` to
the player's `minion_died` event only on the 0 to 1 transition. -/
def DoubleDeathrattle.applyStep (eid : Nat) (p : CountGatedPlayer) : CountGatedPlayer :=
  let p := { p with ddCount := p.ddCount + 1 }
  if p.ddCount == 1 then
    { p with minionDiedListeners := p.minionDiedListeners ++ [.trigger_deathrattle eid] }
  else p

/-- Registry decrement followed by `DoubleDeathrattle.unapply` (lines 307-309):
only on the transition to 0, the instance `eid` unbinds *its own* bound
method `self.trigger_deathrattle` — removal of the first structurally-equal
entry, a no-op when that instance's method was never bound. -/
def DoubleDeathrattle.unapplyStep (eid : Nat) (p : CountGatedPlayer) : CountGatedPlayer :=
  let p := { p with ddCount := p.ddCount - 1 }
  if p.ddCount == 0 then
    { p with minionDiedListeners := p.minionDiedListeners.erase (.trigger_deathrattle eid) }
  else p

/-! ## Mana filters (ManaFilter, minion.py lines 332-383)

`ManaFilter.apply` builds a predicate from `filter_type` and appends a fresh
`Filter(amount, minimum, filter)` object to the chosen players'
`mana_filters` lists; `unapply` removes that same object (Python removes by
object identity here since `Filter` defines no equality; the `id` field
models that identity). -/

structure Card where
  isMinionCard : Bool
  is_spell : Bool
  isSecretCard : Bool
  deriving DecidableEq, Repr

/-- The predicate `my_filter` chosen by `ManaFilter.apply` (lines 355-362)
from `filter_type`: `"minion"`, `"spell"`, `"secret"`, anything else matches
every card. -/
def ManaFilter.my_filter (filter_type : String) (c : Card) : Bool :=
  if filter_type == "minion" then c.isMinionCard
  else if filter_type == "spell" then c.is_spell
  else if filter_type == "secret" then c.isSecretCard
  else true

/-- The nested `Filter` record built in `ManaFilter.apply` (lines 364-370):
`amount`, `min`, and the card predicate (kept as its `filter_type` tag so the
record has decidable equality); `id` models Python object identity. -/
structure MFilter where
  amount : Int
  min : Int
  filter_type : String
  id : Nat
  deriving DecidableEq, Repr

/-- Whether a `Filter` entry matches a card: its stored predicate applied to
the card. -/
def MFilter.matches (f : MFilter) (c : Card) : Bool :=
  ManaFilter.my_filter f.filter_type c

/-- Modelled from the spec: the effective-cost fold over a player's
`mana_filters` (spec §4.5) lives in the player/card cost code outside this
module.  Start from the card's base cost; each filter whose predicate matches
the card, in registration order, replaces `cost` by
`max(cost + filter.amount, filter.min)`. -/
def effectiveCost (base : Int) (filters : List MFilter) (c : Card) : Int :=
  filters.foldl (fun cost f => if f.matches c then max (cost + f.amount) f.min else cost) base

/-- The alternative the spec rules out: one additive pass and a single clamp
at the end (cost plus the sum of matching amounts, clamped once to the largest
matching floor). -/
def endClampCost (base : Int) (filters : List MFilter) (c : Card) : Int :=
  max (base + ((filters.filter (fun f => f.matches c)).map MFilter.amount).sum)
    (((filters.filter (fun f => f.matches c)).map MFilter.min).foldl max 0)

/-! ## SummonOnDeath (minion.py lines 58-89)

A minion's `deathrattle` slot holds `None` or one callable; a deathrattle is
run with the dying minion and mutates the game — in this model it transforms
the owning player's board (list of minion card names). -/

/-- A deathrattle callable: transforms the owning player's board. -/
def Deathrattle := List String → List String

/-- `SummonOnDeath.summon_replacement` (lines 81-86): first invokes the
captured `old_death_rattle` if it is not `None`, then `count` times creates a
replacement card and summons it at index `len(self.target.player.minions)`
(evaluated after each summon). -/
def SummonOnDeath.summon_replacement (old_death_rattle : Option Deathrattle)
    (replacement : String) (count : Nat) : Deathrattle :=
  fun board =>
    let board := match old_death_rattle with
      | some dr => dr board
      | none => board
    (List.range count).foldl (fun b _ => summonAt b replacement b.length) board

/-- `SummonOnDeath.apply` (lines 74-76): captures the current deathrattle slot
into `old_death_rattle` and installs `summon_replacement`.  Returns the new
contents of the slot. -/
def SummonOnDeath.apply (replacement : String) (count : Nat)
    (slot : Option Deathrattle) : Option Deathrattle :=
  some (SummonOnDeath.summon_replacement slot replacement count)

/-- Running whatever occupies a deathrattle slot (an empty slot does
nothing). -/
def runDeathrattle (slot : Option Deathrattle) (board : List String) : List String :=
  match slot with
  | some dr => dr board
  | none => board

/-! ## Buff filter checks (minion.py lines 572-592) -/

/-- `Buff._check_minion_filter` (lines 572-586).  `fromStr` is the external
`MINION_TYPE.from_str` table (modelled from the spec: a name-to-type-id
lookup; `none` stands for a raised `KeyError`).  The result is `.ok b` where
`b` records whether `self._do_action()` was invoked; an uncaught exception
would surface as `.error`, but the source catches the `KeyError` with `pass`,
so the lookup-miss branch yields `.ok false`. -/
def Buff.check_minion_filter (fromStr : String → Option Nat) (minion_filter : String)
    (minionIsTarget : Bool) (minionHasDeathrattle : Bool) (minionType : Nat) :
    Except String Bool :=
  if minion_filter == "self" then .ok minionIsTarget
  else if minion_filter == "minion" then .ok true
  else if minion_filter == "deathrattle" && minionHasDeathrattle then .ok true
  else
    match fromStr minion_filter with
    | some type_id => .ok (minionType == type_id)
    | none => .ok false

/-! ## Player selectors (error handling, spec §7) -/

/-- Tag for the two players reachable from an effect's target:
`self.target.player` and `self.target.player.opponent`. -/
inductive PTag
  | friendly
  | enemy
  deriving DecidableEq, Repr

/-- `StatsAura.apply`'s player selection (lines 248-254): the final `else`
catches every string other than `"friendly"` and `"enemy"`, so an
unrecognized value silently selects both players.  Returns the players whose
minions the added aura will affect; no code path raises. -/
def StatsAura.applyPlayers (players : String) : List PTag :=
  if players == "friendly" then [.friendly]
  else if players == "enemy" then [.enemy]
  else [.friendly, .enemy]

/-- `Buff.apply`'s player selection (lines 507-514): raises `RuntimeError` on
an unrecognized value. -/
def Buff.applyPlayers (players : String) : Except String (List PTag) :=
  if players == "friendly" then .ok [.friendly]
  else if players == "enemy" then .ok [.enemy]
  else if players == "both" then .ok [.friendly, .enemy]
  else .error "Required players to be friendly, enemy, or both"

/-- `Buff._do_action`'s target selection (lines 594-610): the candidate list
the random pick draws from, or a raised `RuntimeError` for an unrecognized
`buff_target`.  (`targets.remove(self.target)` removes the first matching
entry.)  Minions are identified by ids. -/
def Buff.doActionTargets (buff_target : String) (targetId : Nat)
    (friendlyMinions enemyMinions : List Nat) : Except String (List Nat) :=
  if buff_target == "self" then .ok [targetId]
  else if buff_target == "random" then .ok ((friendlyMinions ++ enemyMinions).erase targetId)
  else if buff_target == "random_friendly" then .ok (friendlyMinions.erase targetId)
  else if buff_target == "random_enemy" then .ok enemyMinions
  else .error "Expected target to be one of self, random, random_friendly or random_enemy"

/-! ## ManaFilter apply/unapply (minion.py lines 354-380)

The two players' `mana_filters` lists.  `apply` appends the freshly created
`Filter` object to the lists selected by `self.player`; `unapply` removes it
again (`list.remove`, removal of the first matching entry — by object
identity, since `Filter` defines no equality; the first matching entry is the
object itself as long as its `id` is fresh). -/

structure ManaFilterLists where
  friendlyFilters : List MFilter
  enemyFilters : List MFilter
  deriving DecidableEq, Repr

/-- `ManaFilter.apply` (lines 354-374), selector part: an unrecognized
`player` value appends to neither list and raises nothing. -/
def ManaFilter.apply (player : String) (filter_object : MFilter)
    (st : ManaFilterLists) : ManaFilterLists :=
  let st :=
    if player == "friendly" || player == "both" then
      { st with friendlyFilters := st.friendlyFilters ++ [filter_object] }
    else st
  if player == "enemy" || player == "both" then
    { st with enemyFilters := st.enemyFilters ++ [filter_object] }
  else st

/-- `ManaFilter.unapply` (lines 376-380). -/
def ManaFilter.unapply (player : String) (filter_object : MFilter)
    (st : ManaFilterLists) : ManaFilterLists :=
  let st :=
    if player == "friendly" || player == "both" then
      { st with friendlyFilters := st.friendlyFilters.erase filter_object }
    else st
  if player == "enemy" || player == "both" then
    { st with enemyFilters := st.enemyFilters.erase filter_object }
  else st

/-! ## Simple listener-based effects: KillMinion, Immune, FreezeOnDamage

A listener list pairs the event name with the bound callback, in registration
order; `bind` appends and `unbind` removes the first matching entry (a no-op
when absent), per the event-bus contract (spec §4.1).

`KillMinion` and `Immune` bind and unbind on `self.target.game.current_player`
— a lookup resolved separately at each call, so the player whose bus `apply`
binds on can differ from the one `unapply` unbinds on. -/

/-- The two players' listener lists; `game.current_player` is one of them,
resolved at call time. -/
structure GameBus where
  player1 : List (String × PlayerCb)
  player2 : List (String × PlayerCb)
  deriving DecidableEq, Repr

/-- `game.current_player.bind(event, callback)` — `currentIsP1` says which
player is current at this call. -/
def GameBus.bindCurrent (g : GameBus) (currentIsP1 : Bool) (e : String)
    (c : PlayerCb) : GameBus :=
  if currentIsP1 then { g with player1 := g.player1 ++ [(e, c)] }
  else { g with player2 := g.player2 ++ [(e, c)] }

/-- `game.current_player.unbind(event, callback)` — removal of the first
matching entry on whichever player is current at this call. -/
def GameBus.unbindCurrent (g : GameBus) (currentIsP1 : Bool) (e : String)
    (c : PlayerCb) : GameBus :=
  if currentIsP1 then { g with player1 := g.player1.erase (e, c) }
  else { g with player2 := g.player2.erase (e, c) }

/-- `KillMinion.apply` (lines 45-46): binds `self.die` to
`game.current_player`'s `self.when` event, with `current_player` resolved at
apply time. -/
def KillMinion.apply (when : String) (currentIsP1 : Bool) (g : GameBus) : GameBus :=
  g.bindCurrent currentIsP1 when .die

/-- `KillMinion.unapply` (lines 48-49): unbinds from `game.current_player`
resolved afresh at unapply time. -/
def KillMinion.unapply (when : String) (currentIsP1 : Bool) (g : GameBus) : GameBus :=
  g.unbindCurrent currentIsP1 when .die

/-- State touched by `Immune`: the target's `immune` flag and the two
players' listener lists. -/
structure ImmuneState where
  immune : Bool
  bus : GameBus
  deriving DecidableEq, Repr

/-- `Immune.apply` (lines 96-98): sets `immune` and binds `remove_immunity`
to `turn_ended` on `game.current_player`, resolved at apply time. -/
def Immune.apply (currentIsP1 : Bool) (st : ImmuneState) : ImmuneState :=
  { st with immune := true,
            bus := st.bus.bindCurrent currentIsP1 "turn_ended" .remove_immunity }

/-- `Immune.unapply` (lines 100-102): calls `remove_immunity()` (clearing the
flag) and unbinds it from `game.current_player`, resolved afresh at unapply
time. -/
def Immune.unapply (currentIsP1 : Bool) (st : ImmuneState) : ImmuneState :=
  { st with immune := false,
            bus := st.bus.unbindCurrent currentIsP1 "turn_ended" .remove_immunity }

/-- `FreezeOnDamage.apply` (lines 433-434): binds `self.did_damage` to the
target's `did_damage` event. -/
def FreezeOnDamage.apply (listeners : List (String × PlayerCb)) :
    List (String × PlayerCb) :=
  listeners ++ [("did_damage", .did_damage)]

/-- `FreezeOnDamage.unapply` (lines 436-437). -/
def FreezeOnDamage.unapply (listeners : List (String × PlayerCb)) :
    List (String × PlayerCb) :=
  listeners.erase ("did_damage", .did_damage)

/-! ## Buff apply/unapply (minion.py lines 506-570)

The two players' listener lists as one store of
(player, event name, callback) triples in registration order. -/

abbrev PBus := List (PTag × String × PlayerCb)

/-- `player.bind(event, callback)` for every selected player in order
(`for player in players: player.bind(...)`). -/
def Buff.bindAll (ps : List PTag) (e : String) (c : PlayerCb) (st : PBus) : PBus :=
  ps.foldl (fun st p => st ++ [(p, e, c)]) st

/-- `player.unbind(event, callback)` for every selected player in order. -/
def Buff.unbindAll (ps : List PTag) (e : String) (c : PlayerCb) (st : PBus) : PBus :=
  ps.foldl (fun st p => st.erase (p, e, c)) st

structure BuffCfg where
  when : String
  minion_filter : String
  buff_target : String
  players : String
  deriving DecidableEq, Repr

/-- The (event, callback) pair each branch of the if/elif chain of
`Buff.apply` (lines 516-537) binds to every selected player; `none` when no
branch matches (an unrecognized `when` binds nothing).  `Buff.unapply`
(lines 549-570) is branch-for-branch identical with `unbind`. -/
def Buff.binding (b : BuffCfg) : Option (String × PlayerCb) :=
  if b.when == "death" then some ("minion_died", .check_minion_filter)
  else if b.when == "damaged" then some ("minion_damaged", .check_minion_filter)
  else if b.when == "summoned" then some ("minion_summoned", .check_minion_filter)
  else if b.when == "played" then
    if b.minion_filter == "spell" || b.minion_filter == "secret"
        || b.minion_filter == "card" then
      some ("card_played", .check_card_filter)
    else some ("minion_played", .check_minion_filter)
  else if b.when == "turn_ended" then some ("turn_ended", .do_action)
  else if b.when == "turn_started" then some ("turn_started", .do_action)
  else none

/-- `Buff.apply` (lines 506-537): selects the players (raising on an
unrecognized selector) and binds the branch's callback on each. -/
def Buff.apply (b : BuffCfg) (st : PBus) : Except String PBus :=
  match Buff.applyPlayers b.players with
  | .error e => .error e
  | .ok ps =>
      match Buff.binding b with
      | some (e, c) => .ok (Buff.bindAll ps e c st)
      | none => .ok st

/-- `Buff.unapply` (lines 539-570): same selection, unbinding instead. -/
def Buff.unapply (b : BuffCfg) (st : PBus) : Except String PBus :=
  match Buff.applyPlayers b.players with
  | .error e => .error e
  | .ok ps =>
      match Buff.binding b with
      | some (e, c) => .ok (Buff.unbindAll ps e c st)
      | none => .ok st

/-! ## ChargeAura (minion.py lines 144-223)

Minions are identified by ids; `charge`, the per-minion `silenced`/`copied`
listener lists and the two players' `minion_played` listener lists are
explicit state.  The closures created inside `give_charge_if_beast` are
represented by named callbacks carrying their captured minion id. -/

/-- The callbacks `ChargeAura` registers: the closures `silenced`, `copied`,
`target_silenced` from `give_permacharge_effect`, the closures `silenced` and
the target-unbinding lambda from `watch_for_silence` (each capturing
`minion`), and the bound method `give_charge_if_beast`. -/
inductive CACb
  | give_silenced (m : Nat)
  | give_copied (m : Nat)
  | target_silenced (m : Nat)
  | watch_silenced (m : Nat)
  | watch_target_unbind (m : Nat)
  | give_charge_if_beast
  deriving DecidableEq, Repr

/-- A listener entry: the callback with its one-shot flag (`bind_once`
entries carry `true`). -/
abbrev CAEntry := CACb × Bool

structure CAState where
  charge : Nat → Bool
  affected_minions : List Nat
  charged_minions : List Nat
  silencedListeners : Nat → List CAEntry
  copiedListeners : Nat → List CAEntry
  minionPlayedF : List CAEntry
  minionPlayedE : List CAEntry

def CAState.setCharge (st : CAState) (m : Nat) (b : Bool) : CAState :=
  { st with charge := fun n => if n = m then b else st.charge n }

def CAState.modSil (st : CAState) (m : Nat) (f : List CAEntry → List CAEntry) : CAState :=
  { st with silencedListeners :=
      fun n => if n = m then f (st.silencedListeners n) else st.silencedListeners n }

def CAState.modCop (st : CAState) (m : Nat) (f : List CAEntry → List CAEntry) : CAState :=
  { st with copiedListeners :=
      fun n => if n = m then f (st.copiedListeners n) else st.copiedListeners n }

/-- The `ChargeAura` effect instance: its target minion's id, the `players`
selector and the minion type (`none` = `MINION_TYPE.ALL`). -/
structure ChargeAura where
  targetId : Nat
  players : String
  minion_type : Option Nat
  deriving DecidableEq, Repr

/-- `self.minion_type == MINION_TYPE.ALL or played_minion.card.minion_type ==
self.minion_type` — `mt` gives each minion's `card.minion_type`. -/
def ChargeAura.typeMatches (a : ChargeAura) (mt : Nat → Nat) (m : Nat) : Bool :=
  match a.minion_type with
  | none => true
  | some t => mt m == t

/-- `give_permacharge_effect` (lines 190-206): grants charge, records the
minion in `affected_minions`, binds `silenced`/`copied` on the minion and a
one-shot `target_silenced` on the aura's target. -/
def ChargeAura.give_permacharge_effect (a : ChargeAura) (m : Nat) (st : CAState) : CAState :=
  let st := st.setCharge m true
  let st := { st with affected_minions := st.affected_minions ++ [m] }
  let st := st.modSil m (fun l => l ++ [(.give_silenced m, false)])
  let st := st.modCop m (fun l => l ++ [(.give_copied m, false)])
  st.modSil a.targetId (fun l => l ++ [(.target_silenced m, true)])

/-- `watch_for_silence` (lines 208-214): one-shot migration listener on the
minion, one-shot unbinding lambda on the aura's target, and the minion is
recorded in `charged_minions`. -/
def ChargeAura.watch_for_silence (a : ChargeAura) (m : Nat) (st : CAState) : CAState :=
  let st := st.modSil m (fun l => l ++ [(.watch_silenced m, true)])
  let st := st.modSil a.targetId (fun l => l ++ [(.watch_target_unbind m, true)])
  { st with charged_minions := st.charged_minions ++ [m] }

/-- `give_charge_if_beast` (lines 185-220). -/
def ChargeAura.give_charge_if_beast (a : ChargeAura) (mt : Nat → Nat) (played : Nat)
    (st : CAState) : CAState :=
  if played == a.targetId && a.typeMatches mt played then
    st.setCharge a.targetId true
  else
    if a.typeMatches mt played then
      if !st.charge played then a.give_permacharge_effect played st
      else a.watch_for_silence played st
    else st

/-- Invocation of one registered callback.  `give_copied` mutates only the
event's argument (the freshly copied minion), which is outside this state;
`give_charge_if_beast` needs the played-minion argument and is bound only to
`minion_played`, which these theorems never fire. -/
def ChargeAura.invoke (a : ChargeAura) (cb : CACb) (st : CAState) : CAState :=
  match cb with
  | .give_silenced m => st.setCharge m true
  | .give_copied _ => st
  | .target_silenced m =>
      let st := st.modSil m (fun l => l.erase (.give_silenced m, false))
      let st := st.modCop m (fun l => l.erase (.give_copied m, false))
      st.setCharge m false
  | .watch_silenced m =>
      let st := { st with charged_minions := st.charged_minions.erase m }
      a.give_permacharge_effect m st
  | .watch_target_unbind m => st.modSil m (fun l => l.erase (.watch_silenced m, true))
  | .give_charge_if_beast => st

/-- Modelled from the spec: publishing `silenced` on minion `n` (spec §4.1) —
the listener snapshot is taken at publish time, callbacks run in registration
order, and a `bind_once` entry is removed from the live list right after its
invocation. -/
def ChargeAura.fireSilenced (a : ChargeAura) (n : Nat) (st : CAState) : CAState :=
  (st.silencedListeners n).foldl
    (fun st p =>
      let st := a.invoke p.1 st
      if p.2 then st.modSil n (fun l => l.erase p) else st)
    st

/-- `ChargeAura.apply` (lines 165-176): runs `give_charge_if_beast` over the
selected players' current minions and binds it to their `minion_played`
events. -/
def ChargeAura.apply (a : ChargeAura) (mt : Nat → Nat)
    (friendlyMinions enemyMinions : List Nat) (st : CAState) : CAState :=
  let st :=
    if a.players == "friendly" || a.players == "both" then
      let st := friendlyMinions.foldl (fun st m => a.give_charge_if_beast mt m st) st
      { st with minionPlayedF := st.minionPlayedF ++ [(.give_charge_if_beast, false)] }
    else st
  if a.players == "enemy" || a.players == "both" then
    let st := enemyMinions.foldl (fun st m => a.give_charge_if_beast mt m st) st
    { st with minionPlayedE := st.minionPlayedE ++ [(.give_charge_if_beast, false)] }
  else st

/-- `ChargeAura.unapply` (lines 178-183): unbinds only the `minion_played`
subscriptions. -/
def ChargeAura.unapply (a : ChargeAura) (st : CAState) : CAState :=
  let st :=
    if a.players == "friendly" || a.players == "both" then
      { st with minionPlayedF := st.minionPlayedF.erase (.give_charge_if_beast, false) }
    else st
  if a.players == "enemy" || a.players == "both" then
    { st with minionPlayedE := st.minionPlayedE.erase (.give_charge_if_beast, false) }
  else st

/-! ## ChargeAura scenario (used by the temporal claims)

Target minion 0 carries the aura (friendly minions, any type); minion 1 is a
friendly minion that already has charge of its own. -/

def caAura : ChargeAura := ⟨0, "friendly", none⟩

def caTypes : Nat → Nat := fun _ => 0

def caSt0 : CAState :=
  ⟨fun n => n == 1, [], [], fun _ => [], fun _ => [], [], []⟩

/-- After `apply`: minion 1 is watched for silence (temporarily affected). -/
def caSt1 : CAState := caAura.apply caTypes [1] [] caSt0

/-- Minion 1 is silenced: it migrates to `affected_minions`. -/
def caSt2 : CAState := caAura.fireSilenced 1 caSt1

/-- The aura's target (minion 0) is then silenced. -/
def caSt3 : CAState := caAura.fireSilenced 0 caSt2

/-- Variant: the target is silenced while minion 1 is still only watched. -/
def caSt1t : CAState := caAura.fireSilenced 0 caSt1

/-- Variant starting state: friendly minion 1 does not have charge, so
`apply` grants it permacharge. -/
def caSt0u : CAState :=
  ⟨fun _ => false, [], [], fun _ => [], fun _ => [], [], []⟩

end Hearthbreaker

namespace Hearthbreaker

/-! ## Theorems -/

/-- Board append: summoning at `len(board)` is exactly appending at the end. -/
theorem summonAt_length (b : List String) (c : String) :
    summonAt b c b.length = b ++ [c] := by
  simp [summonAt]

theorem summon_loop_eq_append (r : String) (n : Nat) (b : List String) :
    (List.range n).foldl (fun b _ => summonAt b r b.length) b = b ++ List.replicate n r := by
  induction n generalizing b with
  | zero => simp
  | succ k ih =>
      rw [List.range_succ, List.foldl_append, ih]
      simp [summonAt_length, List.replicate_succ']

/-- C8: With `minion_type = MINION_TYPE.ALL` (the default), the condition in
`DrawOnMinion.check_minion_draw` is false for every placed minion, so no
`minion_placed` event ever causes a draw. -/
theorem DrawOnMinion_all_never_draws (newMinionType : Nat) (newMinionIsTarget : Bool) :
    DrawOnMinion.drawsCard none newMinionType newMinionIsTarget = false := by
  rfl

/-- C9: `AddCardOnSpell.add_card` appends exactly one card when the hand has
fewer than 10 cards, leaves a hand of 10 or more unchanged, and therefore
never grows a hand beyond 10 cards. -/
theorem AddCardOnSpell_hand_limit (card : String) (hand : List String) :
    (hand.length < 10 → AddCardOnSpell.add_card card hand = hand ++ [card]) ∧
    (10 ≤ hand.length → AddCardOnSpell.add_card card hand = hand) ∧
    (AddCardOnSpell.add_card card hand).length ≤ max hand.length 10 := by
  refine ⟨fun h => ?_, fun h => ?_, ?_⟩
  · simp [AddCardOnSpell.add_card, h]
  · simp [AddCardOnSpell.add_card, Nat.not_lt.mpr h]
  · unfold AddCardOnSpell.add_card
    split
    · have hlen : (hand ++ [card]).length = hand.length + 1 := by simp
      omega
    · exact Nat.le_max_left _ _

/-- Witness for `AddCardOnSpell_hand_limit` at a one-card hand. -/
theorem AddCardOnSpell_hand_limit_witness :
    (["a"] : List String).length < 10 ∧
    AddCardOnSpell.add_card "c" ["a"] = ["a"] ++ ["c"] :=
  ⟨by decide, (AddCardOnSpell_hand_limit "c" ["a"]).1 (by decide)⟩

/-- C10: `ResurrectFriendlyMinionsAtEndOfTurn` records dead friendly minions;
each `turn_ended` summons every recorded card at the end of the owning
player's board and does not clear the record, so `n` turn-ends after a death
produce `n` summons; among the three operations only `unapply` resets
`dead_minions` to `[]`. -/
theorem Resurrect_resummons_every_turn (st : ResurrectState) (c : String) (n : Nat) :
    (Resurrect.minion_died st c).deadMinions = st.deadMinions ++ [c] ∧
    (Resurrect.minion_died st c).board = st.board ∧
    Resurrect.turn_ended st =
      { st with board := st.board ++ st.deadMinions } ∧
    (Nat.rec st (fun _ s => Resurrect.turn_ended s) n : ResurrectState) =
      { st with board := st.board ++ (List.replicate n st.deadMinions).flatten } ∧
    (Resurrect.unapply st).deadMinions = [] ∧
    (Resurrect.unapply st).board = st.board := by
  have hfold : ∀ (ds b : List String),
      ds.foldl (fun b c => summonAt b c b.length) b = b ++ ds := by
    intro ds
    induction ds with
    | nil => simp
    | cons d dt ih =>
        intro b
        rw [List.foldl_cons, summonAt_length, ih]
        simp
  have hturn : ∀ s : ResurrectState,
      Resurrect.turn_ended s = { s with board := s.board ++ s.deadMinions } := by
    intro s
    unfold Resurrect.turn_ended
    rw [hfold]
  refine ⟨rfl, rfl, hturn st, ?_, rfl, rfl⟩
  · induction n with
    | zero => simp
    | succ k ih =>
        show Resurrect.turn_ended (Nat.rec st (fun _ s => Resurrect.turn_ended s) k) = _
        rw [ih, hturn]
        simp [List.replicate_succ', List.flatten_append, List.append_assoc]

/-- C1 counterexample: for `DoubleDeathrattle`, unapplying the two instances
in apply order (instance 1 then instance 2, the spec's M1-then-M2 scenario)
does *not* turn the gated state off: the transition-to-0 unbind is executed
by instance 2, whose bound method was never bound — unbind of an absent
callback is a no-op — so instance 1's `minion_died` subscription survives. -/
theorem double_deathrattle_unbind_mismatch :
    (DoubleDeathrattle.unapplyStep 2 (DoubleDeathrattle.unapplyStep 1
      (DoubleDeathrattle.applyStep 2 (DoubleDeathrattle.applyStep 1
        ⟨0, 0, false, []⟩)))).minionDiedListeners = [.trigger_deathrattle 1] := by
  decide

/-- C1 amended: with the registry incrementing `effect_count[K]` before
`apply()` and decrementing before `unapply()`, applying two instances turns
the gated state on exactly once, and one unapply leaves it on.  For
`HealAsDamage` (a plain player flag) the second unapply turns it off.  For
`DoubleDeathrattle` the subscription bound is instance `a`'s own method, so
the second unapply removes it only when instance `a` (the first applied) is
unapplied last; unapplying in apply order leaves the subscription bound. -/
theorem count_gated_effects (p : CountGatedPlayer) (a b : Nat)
    (hhc : p.healCount = 0) (hhf : p.heal_does_damage = false)
    (hdc : p.ddCount = 0) (hdl : p.minionDiedListeners = []) (hab : a ≠ b) :
    ((HealAsDamage.applyStep p).heal_does_damage = true ∧
     HealAsDamage.applyStep (HealAsDamage.applyStep p) =
       { HealAsDamage.applyStep p with healCount := 2 } ∧
     (HealAsDamage.unapplyStep
        (HealAsDamage.applyStep (HealAsDamage.applyStep p))).heal_does_damage = true ∧
     (HealAsDamage.unapplyStep (HealAsDamage.unapplyStep
        (HealAsDamage.applyStep (HealAsDamage.applyStep p)))).heal_does_damage = false) ∧
    ((DoubleDeathrattle.applyStep a p).minionDiedListeners = [.trigger_deathrattle a] ∧
     (DoubleDeathrattle.applyStep b
        (DoubleDeathrattle.applyStep a p)).minionDiedListeners =
       [.trigger_deathrattle a] ∧
     (DoubleDeathrattle.unapplyStep b
        (DoubleDeathrattle.applyStep b
          (DoubleDeathrattle.applyStep a p))).minionDiedListeners =
       [.trigger_deathrattle a] ∧
     (DoubleDeathrattle.unapplyStep a (DoubleDeathrattle.unapplyStep b
        (DoubleDeathrattle.applyStep b
          (DoubleDeathrattle.applyStep a p)))).minionDiedListeners = [] ∧
     (DoubleDeathrattle.unapplyStep b (DoubleDeathrattle.unapplyStep a
        (DoubleDeathrattle.applyStep b
          (DoubleDeathrattle.applyStep a p)))).minionDiedListeners =
       [.trigger_deathrattle a]) := by
  cases p
  subst hhc hhf hdc hdl
  have hne : (PlayerCb.trigger_deathrattle a == PlayerCb.trigger_deathrattle b) = false := by
    simp [hab]
  refine ⟨by decide, ?_, ?_, ?_, ?_, ?_⟩ <;>
    simp [DoubleDeathrattle.applyStep, DoubleDeathrattle.unapplyStep,
      List.erase_cons, hne]

/-- Witness for `count_gated_effects` at the all-zero player state and
instance ids 1 and 2. -/
theorem count_gated_effects_witness :
    (HealAsDamage.applyStep ⟨0, 0, false, []⟩).heal_does_damage = true ∧
    (DoubleDeathrattle.applyStep 1 ⟨0, 0, false, []⟩).minionDiedListeners =
      [.trigger_deathrattle 1] :=
  ⟨(count_gated_effects ⟨0, 0, false, []⟩ 1 2 rfl rfl rfl rfl (by decide)).1.1,
   (count_gated_effects ⟨0, 0, false, []⟩ 1 2 rfl rfl rfl rfl (by decide)).2.1⟩

/-- C2: the effective cost is the left fold over the filter chain in
registration order, each matching filter clamping to its own floor before the
next one applies; on the scenario filters [(-2, floor 1), (+1, floor 0)] and
base cost 2 this yields 2, whereas a single end clamp would yield 1. -/
theorem ManaFilter_cost_left_fold (base : Int) (fs : List MFilter) (f : MFilter) (c : Card) :
    effectiveCost base (fs ++ [f]) c =
      (if f.matches c then max (effectiveCost base fs c + f.amount) f.min
       else effectiveCost base fs c) ∧
    effectiveCost 2 [⟨-2, 1, "card", 0⟩, ⟨1, 0, "card", 1⟩] c = 2 ∧
    endClampCost 2 [⟨-2, 1, "card", 0⟩, ⟨1, 0, "card", 1⟩] c = 1 := by
  refine ⟨?_, ?_, ?_⟩
  · simp [effectiveCost, List.foldl_append]
  · simp [effectiveCost, MFilter.matches, ManaFilter.my_filter]
  · simp [endClampCost, MFilter.matches, ManaFilter.my_filter]

/-- C3: `SummonOnDeath.apply` captures the current deathrattle slot and
installs a callable that first runs the captured original (when present) and
then summons `count` replacements, each at index `len(player.minions)`, i.e.
appended at the end of the board; hence attaching E1 then E2 fires E1's
summons before E2's. -/
theorem SummonOnDeath_chain (slot : Option Deathrattle) (r r1 r2 : String)
    (cnt c1 c2 : Nat) (b : List String) :
    summonAt b r b.length = b ++ [r] ∧
    runDeathrattle (SummonOnDeath.apply r cnt slot) b
      = runDeathrattle slot b ++ List.replicate cnt r ∧
    runDeathrattle (SummonOnDeath.apply r2 c2 (SummonOnDeath.apply r1 c1 slot)) b
      = (runDeathrattle slot b ++ List.replicate c1 r1) ++ List.replicate c2 r2 := by
  refine ⟨summonAt_length b r, ?_, ?_⟩ <;>
    simp [runDeathrattle, SummonOnDeath.apply, SummonOnDeath.summon_replacement,
      summon_loop_eq_append]

/-- C7: in `Buff._check_minion_filter`, a filter string other than `"self"`,
`"minion"`, `"deathrattle"` whose `MINION_TYPE.from_str` lookup misses is
treated as "does not match": no action is performed and no exception
escapes (the `KeyError` is caught with `pass`). -/
theorem Buff_unrecognized_filter_no_action (fromStr : String → Option Nat)
    (minion_filter : String) (minionIsTarget minionHasDeathrattle : Bool) (minionType : Nat)
    (hs : minion_filter ≠ "self") (hm : minion_filter ≠ "minion")
    (hd : minion_filter ≠ "deathrattle") (hmiss : fromStr minion_filter = none) :
    Buff.check_minion_filter fromStr minion_filter minionIsTarget minionHasDeathrattle
      minionType = .ok false := by
  unfold Buff.check_minion_filter
  rw [if_neg (by simpa using hs), if_neg (by simpa using hm),
    if_neg (by simp [hd]), hmiss]

/-- Witness for `Buff_unrecognized_filter_no_action` at an unrecognized
filter string and an empty lookup table. -/
theorem Buff_unrecognized_filter_no_action_witness :
    Buff.check_minion_filter (fun _ => none) "Bogus" true true 3 = .ok false :=
  Buff_unrecognized_filter_no_action (fun _ => none) "Bogus" true true 3
    (by decide) (by decide) (by decide) rfl

/-- C5 counterexample: an unrecognized `players` selector is not a loud
failure everywhere — `StatsAura.apply` silently treats it as `"both"` and
`ManaFilter.apply` silently attaches the filter to no one; neither raises. -/
theorem selector_not_always_loud :
    StatsAura.applyPlayers "every" = [.friendly, .enemy] ∧
    StatsAura.applyPlayers "every" = StatsAura.applyPlayers "both" ∧
    ManaFilter.apply "every" ⟨1, 0, "card", 0⟩ ⟨[], []⟩ = ⟨[], []⟩ ∧
    ManaFilter.unapply "every" ⟨1, 0, "card", 0⟩ ⟨[], []⟩ = ⟨[], []⟩ := by
  refine ⟨rfl, rfl, rfl, rfl⟩

/-- C5 amended: only `Buff` fails loudly — `Buff.apply`/`Buff.unapply` raise
on an unrecognized `players` selector and `Buff._do_action` raises on an
unrecognized `target` selector (at action time, not apply time); `StatsAura`
silently defaults an unrecognized `players` to both players, and `ManaFilter`
silently attaches/detaches nothing for an unrecognized `player`. -/
theorem selector_error_handling (s bt : String) (f : MFilter) (st : ManaFilterLists)
    (targetId : Nat) (fm em : List Nat)
    (hf : s ≠ "friendly") (he : s ≠ "enemy") (hb : s ≠ "both")
    (h1 : bt ≠ "self") (h2 : bt ≠ "random") (h3 : bt ≠ "random_friendly")
    (h4 : bt ≠ "random_enemy") :
    Buff.applyPlayers s = .error "Required players to be friendly, enemy, or both" ∧
    StatsAura.applyPlayers s = [.friendly, .enemy] ∧
    ManaFilter.apply s f st = st ∧
    ManaFilter.unapply s f st = st ∧
    (∀ (t : Nat) (mtype : Option Nat) (mt : Nat → Nat) (fm2 em2 : List Nat)
       (stc : CAState),
       ChargeAura.apply ⟨t, s, mtype⟩ mt fm2 em2 stc = stc ∧
       ChargeAura.unapply ⟨t, s, mtype⟩ stc = stc) ∧
    Buff.doActionTargets bt targetId fm em =
      .error "Expected target to be one of self, random, random_friendly or random_enemy" := by
  refine ⟨?_, ?_, ?_, ?_, ?_, ?_⟩
  · unfold Buff.applyPlayers
    rw [if_neg (by simpa using hf), if_neg (by simpa using he), if_neg (by simpa using hb)]
  · unfold StatsAura.applyPlayers
    rw [if_neg (by simpa using hf), if_neg (by simpa using he)]
  · unfold ManaFilter.apply
    simp [hf, he, hb]
  · unfold ManaFilter.unapply
    simp [hf, he, hb]
  · intro t mtype mt fm2 em2 stc
    constructor <;> simp [ChargeAura.apply, ChargeAura.unapply, hf, he, hb]
  · unfold Buff.doActionTargets
    rw [if_neg (by simpa using h1), if_neg (by simpa using h2),
      if_neg (by simpa using h3), if_neg (by simpa using h4)]

/-! ### Helper lemmas for apply/unapply symmetry -/

theorem erase_append_of_not_mem {α : Type} [BEq α] [LawfulBEq α] {l : List α} {x : α}
    (h : x ∉ l) : (l ++ [x]).erase x = l := by
  induction l with
  | nil => simp
  | cons a t ih =>
      rw [List.mem_cons, not_or] at h
      have hax : (a == x) = false := by
        rw [beq_eq_false_iff_ne]
        exact fun e => h.1 e.symm
      simp [List.erase_cons, hax, ih h.2]

theorem bindAll_eq (ps : List PTag) (e : String) (c : PlayerCb) (st : PBus) :
    Buff.bindAll ps e c st = st ++ ps.map (fun p => (p, e, c)) := by
  induction ps generalizing st with
  | nil => simp [Buff.bindAll]
  | cons p pt ih =>
      show Buff.bindAll pt e c (st ++ [(p, e, c)]) = _
      rw [ih]
      simp

theorem unbindAll_bindAll (ps : List PTag) (e : String) (c : PlayerCb) (st : PBus)
    (h : ∀ p : PTag, (p, e, c) ∉ st) :
    Buff.unbindAll ps e c (Buff.bindAll ps e c st) = st := by
  induction ps generalizing st with
  | nil => rfl
  | cons p pt ih =>
      have hX : (Buff.bindAll pt e c (st ++ [(p, e, c)])).erase (p, e, c) =
          Buff.bindAll pt e c st := by
        rw [bindAll_eq, bindAll_eq, List.append_assoc,
          List.erase_append_right _ (h p)]
        simp
      show Buff.unbindAll pt e c
          ((Buff.bindAll pt e c (st ++ [(p, e, c)])).erase (p, e, c)) = st
      rw [hX]
      exact ih st h

theorem binding_cb_cases (b : BuffCfg) (e : String) (c : PlayerCb)
    (h : Buff.binding b = some (e, c)) :
    c = .check_minion_filter ∨ c = .check_card_filter ∨ c = .do_action := by
  unfold Buff.binding at h
  repeat' split at h
  all_goals simp_all

theorem gcib_playedF (a : ChargeAura) (mt : Nat → Nat) (m : Nat) (st : CAState) :
    (a.give_charge_if_beast mt m st).minionPlayedF = st.minionPlayedF := by
  unfold ChargeAura.give_charge_if_beast
  split
  · rfl
  · split
    · split <;> rfl
    · rfl

theorem gcib_playedE (a : ChargeAura) (mt : Nat → Nat) (m : Nat) (st : CAState) :
    (a.give_charge_if_beast mt m st).minionPlayedE = st.minionPlayedE := by
  unfold ChargeAura.give_charge_if_beast
  split
  · rfl
  · split
    · split <;> rfl
    · rfl

theorem gcib_foldl_playedF (a : ChargeAura) (mt : Nat → Nat) (ms : List Nat) (st : CAState) :
    (ms.foldl (fun st m => a.give_charge_if_beast mt m st) st).minionPlayedF =
      st.minionPlayedF := by
  induction ms generalizing st with
  | nil => rfl
  | cons m mt2 ih => rw [List.foldl_cons, ih, gcib_playedF]

theorem gcib_foldl_playedE (a : ChargeAura) (mt : Nat → Nat) (ms : List Nat) (st : CAState) :
    (ms.foldl (fun st m => a.give_charge_if_beast mt m st) st).minionPlayedE =
      st.minionPlayedE := by
  induction ms generalizing st with
  | nil => rfl
  | cons m mt2 ih => rw [List.foldl_cons, ih, gcib_playedE]

theorem ca_apply_playedF (a : ChargeAura) (mt : Nat → Nat) (fm em : List Nat) (st : CAState) :
    (a.apply mt fm em st).minionPlayedF =
      (if a.players == "friendly" || a.players == "both" then
        st.minionPlayedF ++ [(.give_charge_if_beast, false)]
      else st.minionPlayedF) := by
  unfold ChargeAura.apply
  by_cases h1 : (a.players == "friendly" || a.players == "both") = true <;>
  by_cases h2 : (a.players == "enemy" || a.players == "both") = true <;>
    simp [h1, h2, gcib_foldl_playedF]

theorem ca_apply_playedE (a : ChargeAura) (mt : Nat → Nat) (fm em : List Nat) (st : CAState) :
    (a.apply mt fm em st).minionPlayedE =
      (if a.players == "enemy" || a.players == "both" then
        st.minionPlayedE ++ [(.give_charge_if_beast, false)]
      else st.minionPlayedE) := by
  unfold ChargeAura.apply
  by_cases h1 : (a.players == "friendly" || a.players == "both") = true <;>
  by_cases h2 : (a.players == "enemy" || a.players == "both") = true <;>
    simp [h1, h2, gcib_foldl_playedE]

theorem ca_unapply_playedF (a : ChargeAura) (st : CAState) :
    (a.unapply st).minionPlayedF =
      (if a.players == "friendly" || a.players == "both" then
        st.minionPlayedF.erase (.give_charge_if_beast, false)
      else st.minionPlayedF) := by
  unfold ChargeAura.unapply
  by_cases h1 : (a.players == "friendly" || a.players == "both") = true <;>
  by_cases h2 : (a.players == "enemy" || a.players == "both") = true <;>
    simp [h1, h2]

theorem ca_unapply_playedE (a : ChargeAura) (st : CAState) :
    (a.unapply st).minionPlayedE =
      (if a.players == "enemy" || a.players == "both" then
        st.minionPlayedE.erase (.give_charge_if_beast, false)
      else st.minionPlayedE) := by
  unfold ChargeAura.unapply
  by_cases h1 : (a.players == "friendly" || a.players == "both") = true <;>
  by_cases h2 : (a.players == "enemy" || a.players == "both") = true <;>
    simp [h1, h2]

/-- C4 counterexample: `apply()` then `unapply()` does not restore the
pre-apply state for every listed effect.  `ChargeAura.unapply` removes only
the `minion_played` subscription: the charge it granted to minion 1 and the
per-minion `silenced` listener created during `apply` both survive.
`Immune.unapply` clears the flag even when the target was already immune
before `apply`.  And `KillMinion`/`Immune` bind on `game.current_player`
resolved per call: when the other player is current at unapply time, the
unbind hits the wrong bus (a no-op) and the subscription survives. -/
theorem apply_unapply_not_inverse :
    caSt0u.charge 1 = false ∧
    (caAura.unapply (caAura.apply caTypes [1] [] caSt0u)).charge 1 = true ∧
    caSt0u.silencedListeners 1 = [] ∧
    (caAura.unapply (caAura.apply caTypes [1] [] caSt0u)).silencedListeners 1 =
      [(.give_silenced 1, false)] ∧
    (Immune.unapply true (Immune.apply true ⟨true, ⟨[], []⟩⟩)).immune = false ∧
    (KillMinion.unapply "turn_ended" false
      (KillMinion.apply "turn_ended" true ⟨[], []⟩)).player1 =
      [("turn_ended", .die)] ∧
    (Immune.unapply false (Immune.apply true ⟨false, ⟨[], []⟩⟩)).bus.player1 =
      [("turn_ended", .remove_immunity)] :=
  ⟨rfl, rfl, rfl, rfl, rfl, rfl, rfl⟩

/-- C4 amended: `FreezeOnDamage`, `ManaFilter` and `Buff` (given fresh
callbacks) have `unapply` exactly undo `apply`; `KillMinion` does so provided
the same player is current at apply and unapply time (both resolve
`game.current_player` at call time); `Immune` additionally requires that the
target was not already immune; `ChargeAura.unapply` undoes only the
`minion_played` subscriptions, leaving the charge grants and the
conditionally created per-minion listeners in place. -/
theorem apply_unapply_symmetry :
    (∀ (when : String) (cur : Bool) (g : GameBus),
       (when, PlayerCb.die) ∉ g.player1 → (when, PlayerCb.die) ∉ g.player2 →
       KillMinion.unapply when cur (KillMinion.apply when cur g) = g) ∧
    (∀ (cur : Bool) (st : ImmuneState), st.immune = false →
       ("turn_ended", PlayerCb.remove_immunity) ∉ st.bus.player1 →
       ("turn_ended", PlayerCb.remove_immunity) ∉ st.bus.player2 →
       Immune.unapply cur (Immune.apply cur st) = st) ∧
    (∀ l : List (String × PlayerCb), ("did_damage", PlayerCb.did_damage) ∉ l →
       FreezeOnDamage.unapply (FreezeOnDamage.apply l) = l) ∧
    (∀ (player : String) (f : MFilter) (st : ManaFilterLists),
       f ∉ st.friendlyFilters → f ∉ st.enemyFilters →
       ManaFilter.unapply player f (ManaFilter.apply player f st) = st) ∧
    (∀ (b : BuffCfg) (st st' : PBus),
       (∀ (p : PTag) (e : String), (p, e, PlayerCb.check_minion_filter) ∉ st ∧
           (p, e, PlayerCb.check_card_filter) ∉ st ∧
           (p, e, PlayerCb.do_action) ∉ st) →
       Buff.apply b st = .ok st' → Buff.unapply b st' = .ok st) ∧
    (∀ (a : ChargeAura) (mt : Nat → Nat) (fm em : List Nat) (st : CAState),
       ((CACb.give_charge_if_beast, false) : CAEntry) ∉ st.minionPlayedF →
       ((CACb.give_charge_if_beast, false) : CAEntry) ∉ st.minionPlayedE →
       (a.unapply (a.apply mt fm em st)).minionPlayedF = st.minionPlayedF ∧
       (a.unapply (a.apply mt fm em st)).minionPlayedE = st.minionPlayedE) := by
  refine ⟨?_, ?_, ?_, ?_, ?_, ?_⟩
  · intro when cur g h1 h2
    cases g with
    | mk l1 l2 =>
        simp at h1 h2
        cases cur <;>
          simp [KillMinion.apply, KillMinion.unapply, GameBus.bindCurrent,
            GameBus.unbindCurrent, erase_append_of_not_mem h1,
            erase_append_of_not_mem h2]
  · intro cur st hi h1 h2
    cases st with
    | mk i bus =>
        cases bus with
        | mk l1 l2 =>
            simp at hi h1 h2
            subst hi
            cases cur <;>
              simp [Immune.apply, Immune.unapply, GameBus.bindCurrent,
                GameBus.unbindCurrent, erase_append_of_not_mem h1,
                erase_append_of_not_mem h2]
  · intro l h
    unfold FreezeOnDamage.apply FreezeOnDamage.unapply
    exact erase_append_of_not_mem h
  · intro player f st hf he
    cases st with
    | mk fr en =>
        simp at hf he
        simp only [ManaFilter.apply, ManaFilter.unapply]
        by_cases h1 : (player == "friendly" || player == "both") = true <;>
        by_cases h2 : (player == "enemy" || player == "both") = true <;>
          simp [h1, h2, erase_append_of_not_mem hf, erase_append_of_not_mem he]
  · intro b st st' hfresh happ
    unfold Buff.apply at happ
    unfold Buff.unapply
    cases hps : Buff.applyPlayers b.players with
    | error e => rw [hps] at happ; simp at happ
    | ok ps =>
        rw [hps] at happ
        cases hb : Buff.binding b with
        | none =>
            rw [hb] at happ
            simp at happ
            simp [happ]
        | some ec =>
            obtain ⟨e, c⟩ := ec
            rw [hb] at happ
            simp at happ
            have hAll : ∀ p : PTag, (p, e, c) ∉ st := by
              rcases binding_cb_cases b e c hb with rfl | rfl | rfl
              · exact fun p => (hfresh p e).1
              · exact fun p => (hfresh p e).2.1
              · exact fun p => (hfresh p e).2.2
            simp [← happ, unbindAll_bindAll ps e c st hAll]
  · intro a mt fm em st hF hE
    constructor
    · rw [ca_unapply_playedF, ca_apply_playedF]
      by_cases h1 : (a.players == "friendly" || a.players == "both") = true
      · rw [if_pos h1, if_pos h1]
        exact erase_append_of_not_mem hF
      · rw [if_neg h1, if_neg h1]
    · rw [ca_unapply_playedE, ca_apply_playedE]
      by_cases h2 : (a.players == "enemy" || a.players == "both") = true
      · rw [if_pos h2, if_pos h2]
        exact erase_append_of_not_mem hE
      · rw [if_neg h2, if_neg h2]

/-- Witness for `apply_unapply_symmetry` at concrete empty listener states. -/
theorem apply_unapply_symmetry_witness :
    KillMinion.unapply "turn_ended" true
      (KillMinion.apply "turn_ended" true ⟨[], []⟩) = ⟨[], []⟩ ∧
    Immune.unapply true (Immune.apply true ⟨false, ⟨[], []⟩⟩) = ⟨false, ⟨[], []⟩⟩ ∧
    FreezeOnDamage.unapply (FreezeOnDamage.apply []) = [] ∧
    ManaFilter.unapply "both" ⟨1, 0, "card", 7⟩
      (ManaFilter.apply "both" ⟨1, 0, "card", 7⟩ ⟨[], []⟩) = ⟨[], []⟩ ∧
    Buff.unapply ⟨"death", "minion", "self", "both"⟩
      [(.friendly, "minion_died", .check_minion_filter),
       (.enemy, "minion_died", .check_minion_filter)] = .ok [] ∧
    (caAura.unapply (caAura.apply caTypes [1] [] caSt0u)).minionPlayedF =
      caSt0u.minionPlayedF :=
  ⟨apply_unapply_symmetry.1 "turn_ended" true ⟨[], []⟩ (by simp) (by simp),
   apply_unapply_symmetry.2.1 true ⟨false, ⟨[], []⟩⟩ rfl (by simp) (by simp),
   apply_unapply_symmetry.2.2.1 [] (by simp),
   apply_unapply_symmetry.2.2.2.1 "both" ⟨1, 0, "card", 7⟩ ⟨[], []⟩ (by simp) (by simp),
   apply_unapply_symmetry.2.2.2.2.1 ⟨"death", "minion", "self", "both"⟩ []
     [(.friendly, "minion_died", .check_minion_filter),
      (.enemy, "minion_died", .check_minion_filter)] (by simp) rfl,
   (apply_unapply_symmetry.2.2.2.2.2 caAura caTypes [1] [] caSt0u
     (by simp [caSt0u]) (by simp [caSt0u])).1⟩

/-- C6 counterexample: friendly minion 1 already had charge, was silenced and
so migrated to `affected_minions` (permanently affected); yet when the aura's
source is then silenced, `target_silenced` sets the minion's charge back to
`False` — it does not keep its charge bonus after the source is gone. -/
theorem chargeaura_silenced_source_revokes :
    caSt2.affected_minions = [1] ∧ caSt2.charge 1 = true ∧ caSt3.charge 1 = false :=
  ⟨rfl, rfl, rfl⟩

/-- C6 amended: silencing a temporarily-affected minion migrates it to the
permanently-affected set and detaches the migration listener; silencing the
aura's source detaches the migration listeners of still-temporarily-affected
minions (no further migration) but also revokes the charge of
permanently-affected minions and removes their listeners; only removal via
`unapply` (without the source's `silenced` event) leaves a
permanently-affected minion's charge and listeners intact. -/
theorem chargeaura_silence_lifecycle :
    (caSt1.charged_minions = [1] ∧
     caSt1.silencedListeners 1 = [(.watch_silenced 1, true)] ∧
     caSt1.charge 1 = true) ∧
    (caSt2.charged_minions = [] ∧ caSt2.affected_minions = [1] ∧
     caSt2.silencedListeners 1 = [(.give_silenced 1, false)] ∧
     caSt2.charge 1 = true) ∧
    (caSt1t.silencedListeners 1 = [] ∧ caSt1t.charged_minions = [1] ∧
     caSt1t.charge 1 = true ∧
     (caAura.fireSilenced 1 caSt1t).affected_minions = []) ∧
    (caSt3.charge 1 = false ∧ caSt3.silencedListeners 1 = [] ∧
     caSt3.copiedListeners 1 = [] ∧ caSt3.silencedListeners 0 = []) ∧
    ((caAura.unapply caSt2).charge 1 = true ∧
     (caAura.unapply caSt2).silencedListeners 1 = caSt2.silencedListeners 1 ∧
     (caAura.unapply caSt2).affected_minions = caSt2.affected_minions) :=
  ⟨⟨rfl, rfl, rfl⟩, ⟨rfl, rfl, rfl, rfl⟩, ⟨rfl, rfl, rfl, rfl⟩,
   ⟨rfl, rfl, rfl, rfl⟩, ⟨rfl, rfl, rfl⟩⟩

/-- Witness for `selector_error_handling` at the unrecognized selector
strings `"every"` and `"rand"`. -/
theorem selector_error_handling_witness :
    Buff.applyPlayers "every" = .error "Required players to be friendly, enemy, or both" ∧
    Buff.doActionTargets "rand" 0 [] [] =
      .error "Expected target to be one of self, random, random_friendly or random_enemy" :=
  ⟨(selector_error_handling "every" "rand" ⟨1, 0, "card", 0⟩ ⟨[], []⟩ 0 [] []
      (by decide) (by decide) (by decide) (by decide) (by decide) (by decide)
      (by decide)).1,
   (selector_error_handling "every" "rand" ⟨1, 0, "card", 0⟩ ⟨[], []⟩ 0 [] []
      (by decide) (by decide) (by decide) (by decide) (by decide) (by decide)
      (by decide)).2.2.2.2.2⟩

end Hearthbreaker
